import Mathlib

set_option maxRecDepth 100000

/-
  Verification of the exif-viewer metadata engine (Go sources under
  src/wasm/parser and the PNG container decoder) against its
  natural-language specification.

  Modelling conventions:
  * Go byte slices are `List Nat` with each element in 0..255.
  * Go strings are byte sequences, so they are also `List Nat`; the helper
    `str` converts an ASCII Lean string literal to its byte list.
  * The Go map ExifData (map from string to string) is an association list
    with overwrite-on-insert semantics (`mapInsert`); Go map iteration
    order is irrelevant to the claims, which look at the key/value pairs.
  * Go panics (out-of-bounds indexing) are an explicit `panicked` outcome.
  * The one unbounded recursion in the source, parseIFD -> parseTag ->
    parseIFD via the EXIF sub-IFD pointer tag, is given a fuel parameter;
    running out of fuel is the explicit `none` / `fuelOut` outcome, so
    divergence of the Go original is `none` for every fuel.
  * Loops that provably advance (the JPEG segment walk, PNG chunk walk and
    WebP chunk walk) also consume the same fuel, one unit per iteration.
-/

abbrev Bytes := List Nat

/-- Convert an ASCII Lean string literal to the byte sequence of the
corresponding Go string. -/
def str (s : String) : Bytes := s.toList.map Char.toNat

/-- Go slice expression data[a:b] (used in the source only where a <= b <= len,
so the total truncating version agrees with Go). -/
def extract (data : Bytes) (a b : Nat) : Bytes := (data.drop a).take (b - a)

/-- bytes.TrimRight(data, "\x00"): drop trailing NUL bytes. -/
def trimNul (l : Bytes) : Bytes := (l.reverse.dropWhile (fun b => b == 0)).reverse

def digitsRevAux : Nat → Nat → List Nat
  | 0, _ => []
  | fuel+1, n => if n < 10 then [48 + n] else (48 + n % 10) :: digitsRevAux fuel (n / 10)

/-- fmt.Sprintf("%d", n) for an unsigned integer, as bytes. -/
def decStr (n : Nat) : Bytes := (digitsRevAux (n+1) n).reverse

/-- Zero padding to width w, as in the %0wd format verbs. -/
def padZeros (w n : Nat) : Bytes := List.replicate (w - (decStr n).length) 48 ++ decStr n

def hexDigit (n : Nat) : Nat := if n < 10 then 48 + n else 55 + n

/-- fmt.Sprintf("%02X", b) for a byte. -/
def hex2 (n : Nat) : Bytes := [hexDigit (n / 16 % 16), hexDigit (n % 16)]

/-- fmt.Sprintf("%08X", n) for a 32-bit value. -/
def hex8 (n : Nat) : Bytes :=
  hex2 (n / 16777216 % 256) ++ hex2 (n / 65536 % 256) ++ hex2 (n / 256 % 256) ++ hex2 (n % 256)

/-- fmt.Sprintf("%.2f", float64(num)/float64(den)), modelled by exact rational
rounding to two decimal places; no claim depends on the low bits of the
float64 division, which this mirrors for all small operands. -/
def fmt2f (num den : Nat) : Bytes :=
  let q := (num * 200 + den) / (den * 2)
  decStr (q / 100) ++ [46] ++ padZeros 2 (q % 100)

/-- Go map assignment m[k] = v on an association list: overwrite the
existing key or append a fresh binding. -/
def mapInsert : List (Bytes × Bytes) → Bytes → Bytes → List (Bytes × Bytes)
  | [], k, v => [(k, v)]
  | (k0, v0) :: t, k, v => if k0 = k then (k, v) :: t else (k0, v0) :: mapInsert t k v

/-- Go map lookup m[k]. -/
def mapLookup : List (Bytes × Bytes) → Bytes → Option Bytes
  | [], _ => none
  | (k0, v0) :: t, k => if k0 = k then some v0 else mapLookup t k

/-- ExifData from src/wasm/parser: map from field name to rendered value. -/
abbrev ExifData := List (Bytes × Bytes)

/-- binary.ByteOrder: the two byte orders used by the TIFF decoder. -/
inductive ByteOrder | le | be
deriving DecidableEq, Repr

/-- byteOrder.Uint16 on a 2-byte region at offset i. -/
def readU16 (bo : ByteOrder) (data : Bytes) (i : Nat) : Nat :=
  match bo with
  | .le => data.getD i 0 + 256 * data.getD (i+1) 0
  | .be => 256 * data.getD i 0 + data.getD (i+1) 0

/-- byteOrder.Uint32 on a 4-byte region at offset i. -/
def readU32 (bo : ByteOrder) (data : Bytes) (i : Nat) : Nat :=
  match bo with
  | .le => data.getD i 0 + 256 * data.getD (i+1) 0 + 65536 * data.getD (i+2) 0
      + 16777216 * data.getD (i+3) 0
  | .be => 16777216 * data.getD i 0 + 65536 * data.getD (i+1) 0
      + 256 * data.getD (i+2) 0 + data.getD (i+3) 0

/-- binary.BigEndian.Uint16 at offset i. -/
def be16 (data : Bytes) (i : Nat) : Nat := readU16 .be data i

/-- binary.BigEndian.Uint32 at offset i. -/
def be32 (data : Bytes) (i : Nat) : Nat := readU32 .be data i

/-- Little-endian 32-bit read (WebP RIFF sizes). -/
def le32 (data : Bytes) (i : Nat) : Nat := readU32 .le data i

/-- One bit step of the reflected IEEE CRC-32 (polynomial 0xEDB88320),
as computed by hash/crc32.ChecksumIEEE. -/
def crc32Bit (c : Nat) : Nat := if c % 2 = 1 then Nat.xor (c / 2) 0xEDB88320 else c / 2

def crc32Bits : Nat → Nat → Nat
  | 0, c => c
  | k+1, c => crc32Bits k (crc32Bit c)

def crc32Byte (c b : Nat) : Nat := crc32Bits 8 (Nat.xor c b)

/-- hash/crc32.ChecksumIEEE. -/
def crc32 (data : Bytes) : Nat := Nat.xor (data.foldl crc32Byte 0xFFFFFFFF) 0xFFFFFFFF

/-! ## EXIF tag constants (src/wasm/parser, SimpleExifParser const block) -/

def tagImageDescription : Nat := 0x010E
def tagMake : Nat := 0x010F
def tagModel : Nat := 0x0110
def tagOrientation : Nat := 0x0112
def tagSoftware : Nat := 0x0131
def tagDateTime : Nat := 0x0132
def tagArtist : Nat := 0x013B
def tagCopyright : Nat := 0x8298
def tagExifIFDPointer : Nat := 0x8769
def tagGPSInfoIFDPointer : Nat := 0x8825
def tagExposureTime : Nat := 0x829A
def tagFNumber : Nat := 0x829D
def tagISOSpeedRatings : Nat := 0x8827
def tagDateTimeOriginal : Nat := 0x9003
def tagDateTimeDigitized : Nat := 0x9004
def tagFocalLength : Nat := 0x920A
def tagFlash : Nat := 0x9209
def tagUserComment : Nat := 0x9286
def tagImageUniqueID : Nat := 0xA420
def tagWhiteBalance : Nat := 0xA403
def tagCameraOwnerName : Nat := 0xA430
def tagBodySerialNumber : Nat := 0xA431
def tagLensMake : Nat := 0xA433
def tagLensModel : Nat := 0xA434
def tagLensSerialNumber : Nat := 0xA435

/-- The fixed tag-id to field-name table from SimpleExifParser.parseTag.
Returns none for unmapped tags (and for the two pointer tags, which are
dispatched separately). -/
def tagName (tag : Nat) : Option Bytes :=
  if tag = tagImageDescription then some (str "ImageDescription")
  else if tag = tagMake then some (str "Make")
  else if tag = tagModel then some (str "Model")
  else if tag = tagOrientation then some (str "Orientation")
  else if tag = tagSoftware then some (str "Software")
  else if tag = tagDateTime then some (str "DateTime")
  else if tag = tagArtist then some (str "Artist")
  else if tag = tagCopyright then some (str "Copyright")
  else if tag = tagExposureTime then some (str "ExposureTime")
  else if tag = tagFNumber then some (str "FNumber")
  else if tag = tagISOSpeedRatings then some (str "ISO")
  else if tag = tagDateTimeOriginal then some (str "DateTimeOriginal")
  else if tag = tagDateTimeDigitized then some (str "DateTimeDigitized")
  else if tag = tagFocalLength then some (str "FocalLength")
  else if tag = tagFlash then some (str "Flash")
  else if tag = tagUserComment then some (str "UserComment")
  else if tag = tagImageUniqueID then some (str "ImageUniqueID")
  else if tag = tagWhiteBalance then some (str "WhiteBalance")
  else if tag = tagCameraOwnerName then some (str "CameraOwnerName")
  else if tag = tagBodySerialNumber then some (str "BodySerialNumber")
  else if tag = tagLensMake then some (str "LensMake")
  else if tag = tagLensModel then some (str "LensModel")
  else if tag = tagLensSerialNumber then some (str "LensSerialNumber")
  else none

/-- SimpleExifParser.parseTag value rendering: the switch on dataType.
Returns the rendered value string (empty when the entry is skipped). -/
def tagValue (tag dataType count offset : Nat) (data : Bytes) (bo : ByteOrder) : Bytes :=
  if dataType = 2 then
    if count ≤ 4 then trimNul (extract data offset (offset + count))
    else
      let valueOffset := readU32 bo data offset
      if valueOffset + count ≤ data.length then
        trimNul (extract data valueOffset (valueOffset + count))
      else []
  else if dataType = 3 then
    if count = 1 then decStr (readU16 bo data offset) else []
  else if dataType = 4 then
    if count = 1 then decStr (readU32 bo data offset) else []
  else if dataType = 5 then
    if count = 1 then
      let valueOffset := readU32 bo data offset
      if valueOffset + 8 ≤ data.length then
        let num := readU32 bo data valueOffset
        let den := readU32 bo data (valueOffset + 4)
        if den ≠ 0 then fmt2f num den else []
      else []
    else []
  else if dataType = 7 then
    if tag = tagUserComment ∧ count > 8 then
      let valueOffset := readU32 bo data offset
      if valueOffset + count ≤ data.length then
        let commentData := extract data valueOffset (valueOffset + count)
        if commentData.length > 8 then
          let charset := trimNul (extract commentData 0 8)
          let text := trimNul (commentData.drop 8)
          if charset ≠ [] ∧ charset ≠ str "ASCII" then
            text ++ str " (charset: " ++ charset ++ str ")"
          else text
        else []
      else []
    else []
  else []

/-- SimpleExifParser.parseTag. The sub argument is the recursive call into
parseIFD used by the EXIF sub-IFD pointer tag; none propagates fuel
exhaustion of that recursion. -/
def parseTag (sub : Nat → ExifData → Option ExifData)
    (tag dataType count offset : Nat) (data : Bytes) (bo : ByteOrder)
    (m : ExifData) : Option ExifData :=
  let value := tagValue tag dataType count offset data bo
  if value = [] then some m
  else if tag = tagExifIFDPointer then
    sub (readU32 bo data offset) m
  else
    match tagName tag with
    | some name => some (mapInsert m name value)
    | none => some m

/-- The entry loop of SimpleExifParser.parseIFD: rem entries remain, i is
the current entry index, base is the offset just past the entry count. -/
def ifdLoop (sub : Nat → ExifData → Option ExifData) (data : Bytes) (bo : ByteOrder)
    (base : Nat) : Nat → Nat → ExifData → Option ExifData
  | 0, _, m => some m
  | rem+1, i, m =>
    let entryOffset := base + i * 12
    if entryOffset + 12 > data.length then some m
    else
      let tag := readU16 bo data entryOffset
      let dataType := readU16 bo data (entryOffset + 2)
      let count := readU32 bo data (entryOffset + 4)
      match parseTag sub tag dataType count (entryOffset + 8) data bo m with
      | none => none
      | some m1 => ifdLoop sub data bo base rem (i+1) m1

/-- SimpleExifParser.parseIFD with a fuel bound on the sub-IFD recursion
depth; none means the fuel ran out (the Go original recurses without any
depth or cycle guard). -/
def parseIFD : Nat → Bytes → Nat → ByteOrder → ExifData → Option ExifData
  | 0, _, _, _, _ => none
  | fuel+1, data, offset, bo, m =>
    if offset + 2 > data.length then some m
    else
      let numEntries := readU16 bo data offset
      ifdLoop (fun off m1 => parseIFD fuel data off bo m1) data bo (offset + 2) numEntries 0 m

/-- SimpleExifParser.ParseTIFF: validates the 8-byte TIFF header, then walks
IFD0. The inner Option is the Go error return (the map argument is
untouched in the error cases, exactly as in the source); the outer none is
fuel exhaustion of the IFD recursion. -/
def ParseTIFF (fuel : Nat) (data : Bytes) (m : ExifData) : Option (Except Bytes ExifData) :=
  if data.length < 8 then some (.error (str "TIFF header too short"))
  else if data.getD 0 0 = 73 ∧ data.getD 1 0 = 73 then
    match parseIFD fuel data (readU32 .le data 4) .le m with
    | none => none
    | some m1 => some (.ok m1)
  else if data.getD 0 0 = 77 ∧ data.getD 1 0 = 77 then
    match parseIFD fuel data (readU32 .be data 4) .be m with
    | none => none
    | some m1 => some (.ok m1)
  else some (.error (str "invalid TIFF byte order"))

/-- Termination of the IFD walk on a given region, offset, byte order and
starting map: some fuel makes the walk complete. -/
def IFDWalkTerminates (data : Bytes) (offset : Nat) (bo : ByteOrder) (m : ExifData) : Prop :=
  ∃ fuel, parseIFD fuel data offset bo m ≠ none

/-! ## JPEG container decoder (SimpleExifParser.Parse) -/

/-- Outcome of processing one JPEG segment or of the whole segment walk:
an updated map, a runtime panic (out-of-bounds slice index), or fuel
exhaustion of the embedded TIFF walk. -/
inductive SegsOut
  | done (m : ExifData)
  | panicked
  | fuelOut
deriving DecidableEq, Repr

/-- SimpleExifParser.isPrintable: at least 80 percent of the bytes are
printable ASCII or common whitespace. The Go source compares
float64(printable)/float64(len) > 0.8, which for the exact byte counts
involved coincides with the rational comparison 5*printable > 4*len. -/
def isPrintable (data : Bytes) : Bool :=
  if data.length = 0 then false
  else 4 * data.length <
    5 * data.countP (fun b => (32 ≤ b && b ≤ 126) || b == 9 || b == 10 || b == 13)

/-- The per-marker switch of SimpleExifParser.Parse, processing one segment
payload. marker1 is the second marker byte; seg is the segment payload.
In the APP0 JFIF branch the source indexes segmentData[5] and
segmentData[6] guarded only by len(segmentData) >= 5, so those two reads
can panic; the model makes that explicit. -/
def processSegment (fuel : Nat) (marker1 : Nat) (seg : Bytes) (m : ExifData) : SegsOut :=
  if marker1 = 0xFE then
    .done (mapInsert m (str "JPEG_Comment") seg)
  else if marker1 = 0xE0 then
    if 5 ≤ seg.length ∧ seg.take 5 = str "JFIF\x00" then
      match seg[5]?, seg[6]? with
      | some major, some minor =>
          .done (mapInsert m (str "JFIF_Version") (decStr major ++ [46] ++ padZeros 2 minor))
      | _, _ => .panicked
    else if 5 ≤ seg.length ∧ seg.take 5 = str "JFXX\x00" then
      .done (mapInsert m (str "JFXX_Extension") (str "present"))
    else if 0 < seg.length then
      .done (mapInsert m (str "APP0_Data") (str "(" ++ decStr seg.length ++ str " bytes)"))
    else .done m
  else if marker1 = 0xE1 then
    if 6 ≤ seg.length ∧ seg.take 4 = str "Exif" then
      match ParseTIFF fuel (seg.drop 6) m with
      | none => .fuelOut
      | some (.error e) => .done (mapInsert m (str "EXIF_ParseError") e)
      | some (.ok m1) => .done m1
    else if 29 ≤ seg.length ∧ seg.take 29 = str "http://ns.adobe.com/xap/1.0/\x00" then
      .done (mapInsert m (str "XMP_Metadata") (seg.drop 29))
    else if 0 < seg.length then
      .done (mapInsert m (str "APP1_Data") (str "(" ++ decStr seg.length ++ str " bytes)"))
    else .done m
  else if marker1 = 0xE2 then
    if 14 ≤ seg.length ∧ seg.take 12 = str "ICC_PROFILE\x00" then
      .done (mapInsert m (str "ICC_Profile") (str "present (" ++ decStr seg.length ++ str " bytes)"))
    else if 6 ≤ seg.length ∧ seg.take 6 = str "FPXR\x00\x00" then
      .done (mapInsert m (str "FlashPix") (str "present"))
    else if 0 < seg.length then
      .done (mapInsert m (str "APP2_Data") (str "(" ++ decStr seg.length ++ str " bytes)"))
    else .done m
  else if 0xE3 ≤ marker1 ∧ marker1 ≤ 0xEC then
    let key := str "APP" ++ decStr (marker1 - 0xE0) ++ str "_Data"
    if isPrintable seg ∧ 0 < seg.length then
      .done (mapInsert m key seg)
    else
      .done (mapInsert m key (str "(" ++ decStr seg.length ++ str " bytes binary)"))
  else if marker1 = 0xED then
    if 14 ≤ seg.length ∧ seg.take 14 = str "Photoshop 3.0\x00" then
      .done (mapInsert m (str "Photoshop_IRB") (str "present (" ++ decStr seg.length ++ str " bytes)"))
    else if 0 < seg.length then
      .done (mapInsert m (str "APP13_Data") (str "(" ++ decStr seg.length ++ str " bytes)"))
    else .done m
  else if marker1 = 0xEE then
    if 5 ≤ seg.length ∧ seg.take 5 = str "Adobe" then
      .done (mapInsert m (str "Adobe_APP14") (str "present"))
    else if 0 < seg.length then
      .done (mapInsert m (str "APP14_Data") (str "(" ++ decStr seg.length ++ str " bytes)"))
    else .done m
  else if marker1 = 0xEF then
    if isPrintable seg ∧ 0 < seg.length then
      .done (mapInsert m (str "APP15_Data") seg)
    else
      .done (mapInsert m (str "APP15_Data") (str "(" ++ decStr seg.length ++ str " bytes binary)"))
  else .done m

/-- Position after the 2-byte marker read: bytes.Reader.Read fills at most
the remaining bytes, so the cursor advances to min (pos+2) len. -/
def jpegMarkerNext (data : Bytes) (pos : Nat) : Nat := min (pos + 2) data.length

/-- The segment loop of SimpleExifParser.Parse. pos is the bytes.Reader
cursor. One fuel unit is consumed per iteration; the embedded TIFF walk
shares the same fuel. A short read of the segment payload zero-fills the
remainder of the segment buffer, exactly as make([]byte, n) plus a partial
bytes.Reader.Read does. -/
def jpegLoop : Nat → Bytes → Nat → ExifData → SegsOut
  | 0, _, _, _ => .fuelOut
  | fuel+1, data, pos, m =>
    if data.length ≤ pos then .done m
    else
      let marker0 := data.getD pos 0
      let marker1 := data.getD (pos + 1) 0
      let pos1 := jpegMarkerNext data pos
      if marker0 ≠ 0xFF then jpegLoop fuel data pos1 m
      else if marker1 = 0xDA then .done m
      else if data.length < pos1 + 2 then .done m
      else
        let size := be16 data pos1
        let pos2 := pos1 + 2
        if size < 2 then .done m
        else if data.length ≤ pos2 then .done m
        else
          let k := min (size - 2) (data.length - pos2)
          let seg := extract data pos2 (pos2 + k) ++ List.replicate (size - 2 - k) 0
          match processSegment fuel marker1 seg m with
          | .done m1 => jpegLoop fuel data (pos2 + k) m1
          | r => r

/-- ImageFormat: the closed format enumeration from src/wasm/parser. -/
inductive ImageFormat
  | unknown
  | jpeg
  | tiff
  | png
  | webp
  | heif
deriving DecidableEq, Repr

/-- Go error values produced by the engine: fmt.Errorf messages and the
UnsupportedFormatError struct with its Format field. -/
inductive GoErr
  | msg (s : Bytes)
  | unsupported (format : ImageFormat)
deriving DecidableEq, Repr

/-- Result of a top-level Parse call: the Go (ExifData, error) pair plus
the two model-level outcomes, runtime panic and fuel exhaustion. -/
inductive PResult
  | ok (m : ExifData)
  | err (e : GoErr)
  | panicked
  | fuelOut
deriving DecidableEq, Repr

/-- SimpleExifParser.Parse: JPEG header check, segment walk, and the
empty-map to NoMetadataFound conversion. -/
def simpleParse (fuel : Nat) (data : Bytes) : PResult :=
  if data.length = 0 then .err (.msg (str "failed to read JPEG header: EOF"))
  else
    let h0 := data.getD 0 0
    let h1 := data.getD 1 0
    if h0 ≠ 0xFF ∨ h1 ≠ 0xD8 then
      .err (.msg (str "not a valid JPEG file (header: " ++ hex2 h0 ++ [32] ++ hex2 h1 ++ str ")"))
    else
      match jpegLoop fuel data (min 2 data.length) [] with
      | .done m => if m = [] then .err (.msg (str "no metadata found in JPEG")) else .ok m
      | .panicked => .panicked
      | .fuelOut => .fuelOut

/-! ## PNG container decoder (PNGParser) -/

/-- PNG signature 89 50 4E 47 0D 0A 1A 0A. -/
def pngSignature : Bytes := [137, 80, 78, 71, 13, 10, 26, 10]

/-- PNGParser.parseIHDR. -/
def parseIHDR (data : Bytes) (m : ExifData) : ExifData :=
  if data.length < 13 then m
  else
    let width := be32 data 0
    let height := be32 data 4
    let bitDepth := data.getD 8 0
    let colorType := data.getD 9 0
    let compressionMethod := data.getD 10 0
    let filterMethod := data.getD 11 0
    let interlaceMethod := data.getD 12 0
    let m1 := mapInsert m (str "PNG_ImageWidth") (decStr width)
    let m2 := mapInsert m1 (str "PNG_ImageHeight") (decStr height)
    let m3 := mapInsert m2 (str "PNG_BitDepth") (decStr bitDepth)
    let colorDesc :=
      if colorType = 0 then str "Grayscale"
      else if colorType = 2 then str "RGB"
      else if colorType = 3 then str "Indexed (Palette)"
      else if colorType = 4 then str "Grayscale with Alpha"
      else if colorType = 6 then str "RGB with Alpha"
      else decStr colorType
    let m4 := mapInsert m3 (str "PNG_ColorType") colorDesc
    let m5 := mapInsert m4 (str "PNG_Compression") (decStr compressionMethod)
    let m6 := mapInsert m5 (str "PNG_Filter") (decStr filterMethod)
    if interlaceMethod = 0 then mapInsert m6 (str "PNG_Interlace") (str "None")
    else if interlaceMethod = 1 then mapInsert m6 (str "PNG_Interlace") (str "Adam7")
    else m6

/-- PNGParser.parseTEXt. -/
def parseTEXt (data : Bytes) (m : ExifData) : ExifData :=
  match data.findIdx? (fun b => b == 0) with
  | none => m
  | some nullPos =>
    if data.length ≤ nullPos + 1 then m
    else mapInsert m (str "PNG_" ++ data.take nullPos) (data.drop (nullPos + 1))

/-- PNGParser.parseZTXt. The inflate argument stands for the Go
compress/zlib reader plus io.Copy; none covers both NewReader and Copy
errors, in which case the field is skipped. -/
def parseZTXt (inflate : Bytes → Option Bytes) (data : Bytes) (m : ExifData) : ExifData :=
  match data.findIdx? (fun b => b == 0) with
  | none => m
  | some nullPos =>
    if data.length ≤ nullPos + 2 then m
    else
      let compressionMethod := data.getD (nullPos + 1) 0
      if compressionMethod ≠ 0 then m
      else
        match inflate (data.drop (nullPos + 2)) with
        | none => m
        | some text => mapInsert m (str "PNG_" ++ data.take nullPos) text

/-- PNGParser.parseITXt. -/
def parseITXt (inflate : Bytes → Option Bytes) (data : Bytes) (m : ExifData) : ExifData :=
  match data.findIdx? (fun b => b == 0) with
  | none => m
  | some p1 =>
    if data.length ≤ p1 + 2 then m
    else
      let keyword := data.take p1
      let compressionFlag := data.getD (p1 + 1) 0
      let compressionMethod := data.getD (p1 + 2) 0
      let remaining := data.drop (p1 + 3)
      match remaining.findIdx? (fun b => b == 0) with
      | none => m
      | some p2 =>
        let languageTag := remaining.take p2
        let remaining2 := remaining.drop (p2 + 1)
        match remaining2.findIdx? (fun b => b == 0) with
        | none => m
        | some p3 =>
          let translatedKeyword := remaining2.take p3
          let textData := remaining2.drop (p3 + 1)
          let textOpt :=
            if compressionFlag = 1 ∧ compressionMethod = 0 then inflate textData
            else some textData
          match textOpt with
          | none => m
          | some text =>
            let details :=
              (if languageTag ≠ [] then [str "lang:" ++ languageTag] else []) ++
              (if translatedKeyword ≠ [] then [str "translated:" ++ translatedKeyword] else [])
            let key :=
              if languageTag ≠ [] ∨ translatedKeyword ≠ [] then
                str "PNG_" ++ keyword ++ str " (" ++
                  (List.intercalate (str ", ") details) ++ str ")"
              else str "PNG_" ++ keyword
            mapInsert m key text

/-- PNGParser.parsePHYs. -/
def parsePHYs (data : Bytes) (m : ExifData) : ExifData :=
  if data.length < 9 then m
  else
    let unitStr :=
      if data.getD 8 0 = 0 then str "aspect ratio"
      else if data.getD 8 0 = 1 then str "meter"
      else str "unknown"
    let m1 := mapInsert m (str "PNG_PixelsPerUnitX") (decStr (be32 data 0))
    let m2 := mapInsert m1 (str "PNG_PixelsPerUnitY") (decStr (be32 data 4))
    mapInsert m2 (str "PNG_PixelUnit") unitStr

/-- PNGParser.parseTIME. -/
def parseTIME (data : Bytes) (m : ExifData) : ExifData :=
  if data.length < 7 then m
  else
    let timeStr := padZeros 4 (be16 data 0) ++ [45] ++ padZeros 2 (data.getD 2 0) ++ [45] ++
      padZeros 2 (data.getD 3 0) ++ [32] ++ padZeros 2 (data.getD 4 0) ++ [58] ++
      padZeros 2 (data.getD 5 0) ++ [58] ++ padZeros 2 (data.getD 6 0)
    mapInsert m (str "PNG_ModifyDate") timeStr

/-- PNGParser.parseICCP. -/
def parseICCP (data : Bytes) (m : ExifData) : ExifData :=
  match data.findIdx? (fun b => b == 0) with
  | none => m
  | some nullPos =>
    if data.length ≤ nullPos + 2 then m
    else
      let m1 := mapInsert m (str "PNG_ICCProfile") (data.take nullPos)
      if data.getD (nullPos + 1) 0 = 0 then
        mapInsert m1 (str "PNG_ICCCompression") (str "deflate")
      else m1

/-- The sPLT case inlined in PNGParser.Parse. -/
def parseSPLT (data : Bytes) (m : ExifData) : ExifData :=
  if 0 < data.length then
    match data.findIdx? (fun b => b == 0) with
    | some nullPos => if 0 < nullPos then mapInsert m (str "PNG_Palette") (data.take nullPos) else m
    | none => m
  else m

/-- The chunk-type switch of PNGParser.Parse. The IEND arm of the Go
switch executes a break statement that exits only the switch, not the
chunk loop, so the model (faithfully) treats IEND like an unrecognized
chunk and the walk continues. none propagates fuel exhaustion of the
eXIf TIFF walk. -/
def processPNGChunk (inflate : Bytes → Option Bytes) (fuel : Nat)
    (chunkType chunkData : Bytes) (m : ExifData) : Option ExifData :=
  if chunkType = str "IHDR" then some (parseIHDR chunkData m)
  else if chunkType = str "tEXt" then some (parseTEXt chunkData m)
  else if chunkType = str "zTXt" then some (parseZTXt inflate chunkData m)
  else if chunkType = str "iTXt" then some (parseITXt inflate chunkData m)
  else if chunkType = str "eXIf" then
    match ParseTIFF fuel chunkData m with
    | none => none
    | some (.error e) => some (mapInsert m (str "EXIF_ParseError") e)
    | some (.ok m1) => some m1
  else if chunkType = str "pHYs" then some (parsePHYs chunkData m)
  else if chunkType = str "tIME" then some (parseTIME chunkData m)
  else if chunkType = str "iCCP" then some (parseICCP chunkData m)
  else if chunkType = str "sPLT" then some (parseSPLT chunkData m)
  else some m

/-- The 4-byte big-endian declared length of the chunk at offset. -/
def pngChunkLen (data : Bytes) (offset : Nat) : Nat := be32 data offset

/-- The 4-byte chunk type at offset+4. -/
def pngChunkType (data : Bytes) (offset : Nat) : Bytes := extract data (offset + 4) (offset + 8)

/-- The chunk payload slice. -/
def pngChunkData (data : Bytes) (offset : Nat) : Bytes :=
  extract data (offset + 8) (offset + 8 + pngChunkLen data offset)

/-- The stored CRC-32 following the chunk payload. -/
def pngStoredCRC (data : Bytes) (offset : Nat) : Nat :=
  be32 data (offset + 8 + pngChunkLen data offset)

/-- Cursor position of the next chunk: 8 header bytes, the payload, and
the 4 CRC bytes. -/
def pngNextOffset (data : Bytes) (offset : Nat) : Nat :=
  offset + 8 + pngChunkLen data offset + 4

/-- The chunk loop of PNGParser.Parse, one fuel unit per iteration. -/
def pngWalk (inflate : Bytes → Option Bytes) : Nat → Bytes → Nat → ExifData → Option ExifData
  | 0, _, _, _ => none
  | fuel+1, data, offset, m =>
    if offset + 8 ≤ data.length then
      if pngNextOffset data offset ≤ data.length then
        let m1 :=
          if crc32 (pngChunkType data offset ++ pngChunkData data offset)
              = pngStoredCRC data offset then m
          else mapInsert m (str "PNG_Warning")
            (str "CRC mismatch for chunk " ++ pngChunkType data offset)
        match processPNGChunk inflate fuel (pngChunkType data offset)
            (pngChunkData data offset) m1 with
        | none => none
        | some m2 => pngWalk inflate fuel data (pngNextOffset data offset) m2
      else some m
    else some m

/-- PNGParser.Parse: signature check, chunk walk, empty-map conversion. -/
def pngParse (inflate : Bytes → Option Bytes) (fuel : Nat) (data : Bytes) : PResult :=
  if data.length < 8 then .err (.msg (str "file too small to be PNG"))
  else if extract data 0 8 ≠ pngSignature then .err (.msg (str "not a valid PNG file"))
  else
    match pngWalk inflate fuel data 8 [] with
    | none => .fuelOut
    | some m => if m = [] then .err (.msg (str "no metadata found in PNG")) else .ok m

/-! ## WebP container decoder (WebPParser) -/

/-- Read the raw 24-bit little-endian field at index i of a VP8X payload. -/
def raw24le (data : Bytes) (i : Nat) : Nat :=
  data.getD i 0 + 256 * data.getD (i+1) 0 + 65536 * data.getD (i+2) 0

/-- The VP8X arm of WebPParser.Parse: feature flags and the 1-based
24-bit canvas dimensions (stored value = raw field + 1). -/
def processVP8X (chunkData : Bytes) (m : ExifData) : ExifData :=
  if 10 ≤ chunkData.length then
    let flags := chunkData.getD 0 0
    let features :=
      (if flags &&& 0x20 ≠ 0 then str "ICC " else []) ++
      (if flags &&& 0x10 ≠ 0 then str "Alpha " else []) ++
      (if flags &&& 0x08 ≠ 0 then str "EXIF " else []) ++
      (if flags &&& 0x04 ≠ 0 then str "XMP " else []) ++
      (if flags &&& 0x02 ≠ 0 then str "Animation " else [])
    let m1 := if features ≠ [] then mapInsert m (str "WebP_Features") features else m
    let canvasWidth := raw24le chunkData 4 + 1
    let canvasHeight := raw24le chunkData 7 + 1
    mapInsert (mapInsert m1 (str "WebP_Canvas_Width") (decStr canvasWidth))
      (str "WebP_Canvas_Height") (decStr canvasHeight)
  else m

/-- The ANIM arm of WebPParser.Parse. -/
def processANIM (chunkData : Bytes) (m : ExifData) : ExifData :=
  if 6 ≤ chunkData.length then
    let bgColor := le32 chunkData 0
    let loopCount := chunkData.getD 4 0 + 256 * chunkData.getD 5 0
    mapInsert (mapInsert m (str "WebP_Animation_BgColor") (str "0x" ++ hex8 bgColor))
      (str "WebP_Animation_LoopCount") (decStr loopCount)
  else m

/-- The FourCC switch of WebPParser.Parse. none propagates fuel
exhaustion of the EXIF TIFF walk. -/
def processWebPChunk (fuel : Nat) (chunkID chunkData : Bytes) (m : ExifData) : Option ExifData :=
  if chunkID = str "EXIF" then
    match ParseTIFF fuel chunkData m with
    | none => none
    | some (.error e) => some (mapInsert m (str "EXIF_ParseError") e)
    | some (.ok m1) => some m1
  else if chunkID = str "XMP " then some (mapInsert m (str "XMP_Metadata") chunkData)
  else if chunkID = str "VP8X" then some (processVP8X chunkData m)
  else if chunkID = str "ICCP" then
    some (mapInsert m (str "ICC_Profile") (str "present (" ++ decStr chunkData.length ++ str " bytes)"))
  else if chunkID = str "ANIM" then some (processANIM chunkData m)
  else if chunkID = str "VP8 " then some (mapInsert m (str "WebP_Format") (str "Lossy (VP8)"))
  else if chunkID = str "VP8L" then some (mapInsert m (str "WebP_Format") (str "Lossless (VP8L)"))
  else some m

/-- The 4-byte FourCC of the chunk at offset. -/
def webpChunkID (data : Bytes) (offset : Nat) : Bytes := extract data offset (offset + 4)

/-- The 4-byte little-endian chunk size at offset+4. -/
def webpChunkSize (data : Bytes) (offset : Nat) : Nat := le32 data (offset + 4)

/-- The chunk payload slice. -/
def webpChunkData (data : Bytes) (offset : Nat) : Bytes :=
  extract data (offset + 8) (offset + 8 + webpChunkSize data offset)

/-- Cursor position of the next chunk: 8 header bytes, the payload, and a
pad byte when the declared size is odd. -/
def webpNextOffset (data : Bytes) (offset : Nat) : Nat :=
  offset + 8 + webpChunkSize data offset +
    (if webpChunkSize data offset % 2 = 1 then 1 else 0)

/-- The chunk loop of WebPParser.Parse, one fuel unit per iteration;
bounded by both the buffer length and the declared RIFF size plus 8. -/
def webpWalk : Nat → Bytes → Nat → Nat → ExifData → Option ExifData
  | 0, _, _, _, _ => none
  | fuel+1, data, fileSize, offset, m =>
    if offset < data.length ∧ offset < fileSize + 8 then
      if offset + 8 ≤ data.length then
        if offset + 8 + webpChunkSize data offset ≤ data.length then
          match processWebPChunk fuel (webpChunkID data offset) (webpChunkData data offset) m with
          | none => none
          | some m1 => webpWalk fuel data fileSize (webpNextOffset data offset) m1
        else some m
      else some m
    else some m

/-- WebPParser.Parse: RIFF and WEBP signature checks, chunk walk,
empty-map conversion. -/
def webpParse (fuel : Nat) (data : Bytes) : PResult :=
  if data.length < 12 then .err (.msg (str "file too small to be WebP"))
  else if extract data 0 4 ≠ str "RIFF" then .err (.msg (str "not a valid RIFF file"))
  else if extract data 8 12 ≠ str "WEBP" then .err (.msg (str "not a valid WebP file"))
  else
    match webpWalk fuel data (le32 data 4) 12 [] with
    | none => .fuelOut
    | some m => if m = [] then .err (.msg (str "no metadata found in WebP file")) else .ok m

/-! ## HEIF stub, format detection and dispatch -/

/-- HEIFParser.Parse: the declared-but-unimplemented stub. -/
def heifParse (_data : Bytes) : PResult :=
  .err (.msg (str "HEIF format not yet implemented"))

/-- DetectFormat from src/wasm/parser: a single 12-byte minimum-length
gate, then the signature checks in fixed priority order. -/
def DetectFormat (data : Bytes) : ImageFormat :=
  if data.length < 12 then .unknown
  else if data.getD 0 0 = 0xFF ∧ data.getD 1 0 = 0xD8 ∧ data.getD 2 0 = 0xFF then .jpeg
  else if (data.getD 0 0 = 0x49 ∧ data.getD 1 0 = 0x49 ∧ data.getD 2 0 = 0x2A ∧ data.getD 3 0 = 0x00)
      ∨ (data.getD 0 0 = 0x4D ∧ data.getD 1 0 = 0x4D ∧ data.getD 2 0 = 0x00 ∧ data.getD 3 0 = 0x2A) then .tiff
  else if data.getD 0 0 = 0x89 ∧ data.getD 1 0 = 0x50 ∧ data.getD 2 0 = 0x4E ∧ data.getD 3 0 = 0x47 then .png
  else if data.getD 0 0 = 0x52 ∧ data.getD 1 0 = 0x49 ∧ data.getD 2 0 = 0x46 ∧ data.getD 3 0 = 0x46
      ∧ data.getD 8 0 = 0x57 ∧ data.getD 9 0 = 0x45 ∧ data.getD 10 0 = 0x42 ∧ data.getD 11 0 = 0x50 then .webp
  else if data.getD 4 0 = 0x66 ∧ data.getD 5 0 = 0x74 ∧ data.getD 6 0 = 0x79 ∧ data.getD 7 0 = 0x70 then .heif
  else .unknown

/-- The decoder registry entries returned by GetParser. ExifParser wraps
SimpleExifParser and serves both JPEG and TIFF. -/
inductive ParserKind
  | exif
  | pngKind
  | webpKind
  | heifKind
deriving DecidableEq, Repr

/-- GetParser from src/wasm/parser: the static, closed registry. -/
def GetParser : ImageFormat → Option ParserKind
  | .jpeg => some .exif
  | .tiff => some .exif
  | .png => some .pngKind
  | .webp => some .webpKind
  | .heif => some .heifKind
  | .unknown => none

/-- ParseImage from src/wasm/parser: detect, look up the decoder, and
delegate; a missing decoder yields UnsupportedFormatError. -/
def ParseImage (inflate : Bytes → Option Bytes) (fuel : Nat) (data : Bytes) : PResult :=
  let format := DetectFormat data
  match GetParser format with
  | none => .err (.unsupported format)
  | some .exif => simpleParse fuel data
  | some .pngKind => pngParse inflate fuel data
  | some .webpKind => webpParse fuel data
  | some .heifKind => heifParse data

/-- A zlib inflate stand-in used to instantiate concrete test inputs; none
of the concrete inputs below contain a compressed chunk, so any function
gives the same parse result there. -/
def noInflate : Bytes → Option Bytes := fun _ => none

/-! ## Concrete inputs used by the claims -/

/-- Little-endian 16-bit serialization. -/
def u16le (n : Nat) : Bytes := [n % 256, n / 256 % 256]

/-- Little-endian 32-bit serialization. -/
def u32le (n : Nat) : Bytes := [n % 256, n / 256 % 256, n / 65536 % 256, n / 16777216 % 256]

/-- Big-endian 16-bit serialization. -/
def u16be (n : Nat) : Bytes := [n / 256 % 256, n % 256]

/-- Big-endian 32-bit serialization. -/
def u32be (n : Nat) : Bytes := [n / 16777216 % 256, n / 65536 % 256, n / 256 % 256, n % 256]

/-- A well-formed 27-byte standalone little-endian TIFF whose IFD0 holds a
single ASCII Make entry with value Acme (count 5 including the NUL, value
stored at offset 22). -/
def tiffMakeBytes : Bytes :=
  str "II" ++ [0x2A, 0x00] ++ u32le 8 ++ u16le 1 ++
  (u16le tagMake ++ u16le 2 ++ u32le 5 ++ u32le 22) ++ str "Acme" ++ [0]

/-- The round-trip JPEG: SOI, one APP1 segment whose payload is
Exif NUL NUL followed by tiffMakeBytes. -/
def jpegMakeBytes : Bytes :=
  [0xFF, 0xD8, 0xFF, 0xE1] ++ u16be 35 ++ str "Exif" ++ [0, 0] ++ tiffMakeBytes

/-- A JPEG whose single APP0 segment carries the 6-byte payload
JFIF NUL 0x07: the payload passes the 5-byte JFIF length check but index 6
is out of bounds. -/
def jfifPanicBytes : Bytes :=
  [0xFF, 0xD8, 0xFF, 0xE0] ++ u16be 8 ++ str "JFIF" ++ [0, 7]

/-- A 22-byte little-endian TIFF whose IFD0 holds a single LONG-typed
EXIF IFD pointer entry whose value points back at IFD0 itself (offset 8),
forming a recursion cycle. -/
def cyclicTiffBytes : Bytes :=
  str "II" ++ [0x2A, 0x00] ++ u32le 8 ++ u16le 1 ++
  (u16le tagExifIFDPointer ++ u16le 4 ++ u32le 1 ++ u32le 8)

/-- Serialize a PNG chunk with a correct CRC-32 over type plus data. -/
def pngChunk (chunkType chunkData : Bytes) : Bytes :=
  u32be chunkData.length ++ chunkType ++ chunkData ++ u32be (crc32 (chunkType ++ chunkData))

/-- A PNG whose first chunk is IEND and whose second chunk is a tEXt chunk
Comment NUL Hello (both CRCs correct). -/
def pngAfterIendBytes : Bytes :=
  pngSignature ++ pngChunk (str "IEND") [] ++
  pngChunk (str "tEXt") (str "Comment" ++ [0] ++ str "Hello")

/-- A PNG with a single tEXt chunk Comment NUL Hello whose stored CRC is
zeroed out, so it disagrees with the computed CRC-32. -/
def pngBadCrcBytes : Bytes :=
  pngSignature ++ u32be 13 ++ str "tEXt" ++ str "Comment" ++ [0] ++ str "Hello" ++ u32be 0

/-- A WebP with a single VP8X chunk: zero flags, raw 24-bit width field 99,
raw height field 0. -/
def webpVp8xBytes : Bytes :=
  str "RIFF" ++ u32le 22 ++ str "WEBP" ++ str "VP8X" ++ u32le 10 ++
  [0, 0, 0, 0] ++ [99, 0, 0] ++ [0, 0, 0]

/-- A JPEG whose single APP1 segment carries exactly Exif NUL NUL and no
TIFF payload: the embedded TIFF region is empty. -/
def jpegBadExifBytes : Bytes :=
  [0xFF, 0xD8, 0xFF, 0xE1] ++ u16be 8 ++ str "Exif" ++ [0, 0]

/-- A PNG with a single empty eXIf chunk (correct CRC). -/
def pngBadExifBytes : Bytes :=
  pngSignature ++ pngChunk (str "eXIf") []

/-- A WebP with a single empty EXIF chunk. -/
def webpBadExifBytes : Bytes :=
  str "RIFF" ++ u32le 12 ++ str "WEBP" ++ str "EXIF" ++ u32le 0

/-! ## Helper lemmas -/

theorem mapLookup_insert_self (m : ExifData) (k v : Bytes) :
    mapLookup (mapInsert m k v) k = some v := by
  induction m with
  | nil => simp [mapInsert, mapLookup]
  | cons p t ih =>
    obtain ⟨k0, v0⟩ := p
    by_cases h : k0 = k
    · simp [mapInsert, mapLookup, h]
    · simp [mapInsert, mapLookup, h, ih]

theorem mapLookup_insert_ne (m : ExifData) (k1 k2 v : Bytes) (h : k1 ≠ k2) :
    mapLookup (mapInsert m k1 v) k2 = mapLookup m k2 := by
  induction m with
  | nil => simp [mapInsert, mapLookup, h]
  | cons p t ih =>
    obtain ⟨k0, v0⟩ := p
    by_cases h0 : k0 = k1
    · subst h0
      simp [mapInsert, mapLookup, h]
    · simp [mapInsert, mapLookup, h0, ih]

theorem cyclicIFDNone : ∀ fuel m, parseIFD fuel cyclicTiffBytes 8 ByteOrder.le m = none := by
  intro fuel
  induction fuel with
  | zero => intro m; rfl
  | succ n ih =>
    intro m
    show (match parseIFD n cyclicTiffBytes 8 ByteOrder.le m with
          | none => (none : Option ExifData)
          | some m1 => some m1) = none
    rw [ih m]

/-! ## Claim theorems -/

/-- Claim C1 (code divergence). parseImage routes a buffer detected as TIFF
to the shared JPEG/TIFF decoder, but that decoder demands an FF D8 JPEG
start-of-image marker, so a well-formed standalone TIFF whose IFD0 holds a
recognized Make tag is rejected with a JPEG-header error even though the
TIFF/IFD walker itself (second conjunct) decodes exactly that tag from the
same bytes. -/
theorem c1_standalone_tiff_rejected :
    ParseImage noInflate 64 tiffMakeBytes
      = PResult.err (GoErr.msg (str "not a valid JPEG file (header: 49 49)")) ∧
    ParseTIFF 64 tiffMakeBytes [] = some (Except.ok [(str "Make", str "Acme")]) :=
  ⟨rfl, rfl⟩

/-- Claim C2 (code divergence). The JPEG APP0 handler reads the two JFIF
version bytes at indices 5 and 6 of a segment payload that passed only a
5-byte length check: on a JPEG whose APP0 payload is the 6-byte
JFIF NUL 0x07, index 6 is out of bounds and the parse panics. -/
theorem c2_jfif_oob_panic :
    ParseImage noInflate 64 jfifPanicBytes = PResult.panicked :=
  rfl

/-- Claim C3 counterexample. The TIFF/IFD walk does not terminate on every
input: a little-endian TIFF whose IFD0 holds a single EXIF-IFD-pointer
entry pointing back at IFD0 itself makes the sub-IFD recursion cycle, so
no fuel bound completes the walk. -/
theorem c3_ifd_cycle_diverges : ¬ IFDWalkTerminates cyclicTiffBytes 8 ByteOrder.le [] := by
  intro hterm
  obtain ⟨fuel, hf⟩ := hterm
  exact hf (cyclicIFDNone fuel [])

/-- Claim C3 as amended. Each container walk loop advances its cursor by
at least the fixed header size per iteration: the PNG chunk walk by at
least 12 bytes, the WebP chunk walk by at least 8 bytes, and the JPEG
segment walk marker read by at least 1 byte whenever bytes remain; the
TIFF/IFD sub-IFD recursion carries no such bound. -/
theorem c3_walks_advance :
    (∀ (data : Bytes) (offset : Nat), offset + 12 ≤ pngNextOffset data offset) ∧
    (∀ (data : Bytes) (offset : Nat), offset + 8 ≤ webpNextOffset data offset) ∧
    (∀ (data : Bytes) (pos : Nat), pos < data.length → pos + 1 ≤ jpegMarkerNext data pos) := by
  refine ⟨?_, ?_, ?_⟩
  · intro data offset
    unfold pngNextOffset
    omega
  · intro data offset
    unfold webpNextOffset
    split <;> omega
  · intro data pos h
    unfold jpegMarkerNext
    omega

/-- Witness for the amended claim C3 at a concrete buffer and cursor. -/
theorem c3_walks_advance_witness : 0 + 1 ≤ jpegMarkerNext [0] 0 :=
  c3_walks_advance.2.2 [0] 0 (by decide)

/-- Claim C4 (code divergence). The IEND arm of the PNG chunk switch uses a
Go break statement that exits only the switch, so the walk continues past
IEND: a tEXt chunk located after an IEND chunk still contributes its field
to the returned map. -/
theorem c4_chunk_after_iend_decoded :
    ParseImage noInflate 64 pngAfterIendBytes
      = PResult.ok [(str "PNG_Comment", str "Hello")] :=
  rfl

/-- Claim C5 counterexample. detectFormat rejects every buffer shorter than
12 bytes before any signature check, so the 3-byte buffer FF D8 FF yields
Unknown, not JPEG. -/
theorem c5_short_jpeg_detects_unknown :
    DetectFormat [0xFF, 0xD8, 0xFF] = ImageFormat.unknown ∧
    ImageFormat.unknown ≠ ImageFormat.jpeg :=
  ⟨rfl, by decide⟩

/-- Claim C5 as amended. detectFormat requires at least 12 bytes for every
check, the JPEG check included: any buffer shorter than 12 bytes yields
Unknown, and any buffer of length at least 12 whose first three bytes are
FF D8 FF yields JPEG. -/
theorem c5_detect_twelve_byte_gate :
    (∀ data : Bytes, data.length < 12 → DetectFormat data = ImageFormat.unknown) ∧
    (∀ data : Bytes, 12 ≤ data.length → data.getD 0 0 = 0xFF → data.getD 1 0 = 0xD8 →
      data.getD 2 0 = 0xFF → DetectFormat data = ImageFormat.jpeg) := by
  constructor
  · intro data h
    unfold DetectFormat
    rw [if_pos h]
  · intro data h h0 h1 h2
    unfold DetectFormat
    rw [if_neg (by omega), if_pos ⟨h0, h1, h2⟩]

/-- Witness for the amended claim C5: the empty buffer is Unknown and the
39-byte round-trip JPEG is detected as JPEG. -/
theorem c5_detect_twelve_byte_gate_witness :
    DetectFormat [] = ImageFormat.unknown ∧ DetectFormat jpegMakeBytes = ImageFormat.jpeg :=
  ⟨c5_detect_twelve_byte_gate.1 [] (by decide),
   c5_detect_twelve_byte_gate.2 jpegMakeBytes (by decide) (by decide) (by decide) (by decide)⟩

/-- Claim C6. Round-trip: the synthetic JPEG made of an SOI marker and one
APP1 segment whose payload is Exif NUL NUL followed by a minimal
little-endian TIFF with a single ASCII Make entry valued Acme parses to
exactly the one-entry map Make to Acme. -/
theorem c6_jpeg_exif_roundtrip :
    ParseImage noInflate 64 jpegMakeBytes = PResult.ok [(str "Make", str "Acme")] :=
  rfl

/-- Claim C7. A PNG chunk whose stored CRC-32 disagrees with the CRC
computed over its type and data makes the walk insert the non-fatal
PNG_Warning field and then continue with the chunk and the rest of the
walk (first conjunct, for every chunk); concretely, a PNG with one tEXt
chunk Comment NUL Hello and a zeroed trailing CRC returns success with
the PNG_Comment field plus the warning field. -/
theorem c7_crc_mismatch_warns :
    (∀ (inflate : Bytes → Option Bytes) (fuel : Nat) (data : Bytes) (offset : Nat) (m : ExifData),
      offset + 8 ≤ data.length →
      pngNextOffset data offset ≤ data.length →
      crc32 (pngChunkType data offset ++ pngChunkData data offset) ≠ pngStoredCRC data offset →
      pngWalk inflate (fuel+1) data offset m =
        match processPNGChunk inflate fuel (pngChunkType data offset) (pngChunkData data offset)
            (mapInsert m (str "PNG_Warning")
              (str "CRC mismatch for chunk " ++ pngChunkType data offset)) with
        | none => none
        | some m2 => pngWalk inflate fuel data (pngNextOffset data offset) m2) ∧
    ParseImage noInflate 64 pngBadCrcBytes
      = PResult.ok [(str "PNG_Warning", str "CRC mismatch for chunk tEXt"),
                    (str "PNG_Comment", str "Hello")] := by
  constructor
  · intro inflate fuel data offset m h1 h2 h3
    simp only [pngWalk, if_pos h1, if_pos h2, if_neg h3]
  · rfl

/-- Witness for claim C7 at the concrete bad-CRC PNG. -/
theorem c7_crc_mismatch_warns_witness :
    pngWalk noInflate 64 pngBadCrcBytes 8 [] =
      match processPNGChunk noInflate 63 (pngChunkType pngBadCrcBytes 8)
          (pngChunkData pngBadCrcBytes 8)
          (mapInsert [] (str "PNG_Warning")
            (str "CRC mismatch for chunk " ++ pngChunkType pngBadCrcBytes 8)) with
      | none => none
      | some m2 => pngWalk noInflate 63 pngBadCrcBytes (pngNextOffset pngBadCrcBytes 8) m2 :=
  c7_crc_mismatch_warns.1 noInflate 63 pngBadCrcBytes 8 [] (by decide) (by decide) (by decide)

/-- Claim C8. For every VP8X payload of at least 10 bytes the stored canvas
width and height are the raw 24-bit little-endian fields plus 1; the
concrete WebP with raw width field 99 decodes WebP_Canvas_Width 100. -/
theorem c8_vp8x_dimensions (chunkData : Bytes) (m : ExifData) (h : 10 ≤ chunkData.length) :
    mapLookup (processVP8X chunkData m) (str "WebP_Canvas_Width")
      = some (decStr (raw24le chunkData 4 + 1)) ∧
    mapLookup (processVP8X chunkData m) (str "WebP_Canvas_Height")
      = some (decStr (raw24le chunkData 7 + 1)) ∧
    ParseImage noInflate 64 webpVp8xBytes
      = PResult.ok [(str "WebP_Canvas_Width", str "100"),
                    (str "WebP_Canvas_Height", str "1")] := by
  refine ⟨?_, ?_, rfl⟩
  · simp only [processVP8X, if_pos h]
    rw [mapLookup_insert_ne _ _ _ _ (by decide), mapLookup_insert_self]
  · simp only [processVP8X, if_pos h]
    rw [mapLookup_insert_self]

/-- Witness for claim C8 at a concrete 10-byte VP8X payload with raw width
field 99. -/
theorem c8_vp8x_dimensions_witness :
    mapLookup (processVP8X [0, 0, 0, 0, 99, 0, 0, 0, 0, 0] []) (str "WebP_Canvas_Width")
      = some (decStr (raw24le [0, 0, 0, 0, 99, 0, 0, 0, 0, 0] 4 + 1)) :=
  (c8_vp8x_dimensions [0, 0, 0, 0, 99, 0, 0, 0, 0, 0] [] (by decide)).1

/-- Claim C9. Every buffer the detector classifies as Unknown (no known
container signature, the empty buffer included) makes parseImage return
the UnsupportedFormat error. -/
theorem c9_unknown_unsupported (inflate : Bytes → Option Bytes) (fuel : Nat) (data : Bytes)
    (h : DetectFormat data = ImageFormat.unknown) :
    ParseImage inflate fuel data = PResult.err (GoErr.unsupported ImageFormat.unknown) := by
  simp only [ParseImage, h]
  rfl

/-- Witness for claim C9 at the empty buffer. -/
theorem c9_unknown_unsupported_witness :
    ParseImage noInflate 0 [] = PResult.err (GoErr.unsupported ImageFormat.unknown) :=
  c9_unknown_unsupported noInflate 0 [] (by decide)

/-- Claim C10. An embedded EXIF payload that fails TIFF header validation
(shorter than 8 bytes, or byte-order marker neither II nor MM) yields a
ParseTIFF error (first two conjuncts); each container walk then inserts
the error text under EXIF_ParseError and continues, so the JPEG, PNG and
WebP carriers of an empty EXIF payload all return success with exactly
that entry rather than a NoMetadataFound error. -/
theorem c10_exif_error_recorded :
    (∀ (fuel : Nat) (data : Bytes) (m : ExifData), data.length < 8 →
      ParseTIFF fuel data m = some (Except.error (str "TIFF header too short"))) ∧
    (∀ (fuel : Nat) (data : Bytes) (m : ExifData), ¬ data.length < 8 →
      ¬ (data.getD 0 0 = 73 ∧ data.getD 1 0 = 73) →
      ¬ (data.getD 0 0 = 77 ∧ data.getD 1 0 = 77) →
      ParseTIFF fuel data m = some (Except.error (str "invalid TIFF byte order"))) ∧
    ParseImage noInflate 64 jpegBadExifBytes
      = PResult.ok [(str "EXIF_ParseError", str "TIFF header too short")] ∧
    ParseImage noInflate 64 pngBadExifBytes
      = PResult.ok [(str "EXIF_ParseError", str "TIFF header too short")] ∧
    ParseImage noInflate 64 webpBadExifBytes
      = PResult.ok [(str "EXIF_ParseError", str "TIFF header too short")] := by
  refine ⟨?_, ?_, rfl, rfl, rfl⟩
  · intro fuel data m h
    unfold ParseTIFF
    rw [if_pos h]
  · intro fuel data m h h1 h2
    unfold ParseTIFF
    rw [if_neg h, if_neg h1, if_neg h2]

/-- Witness for claim C10 at the empty TIFF region. -/
theorem c10_exif_error_recorded_witness :
    ParseTIFF 0 [] [] = some (Except.error (str "TIFF header too short")) :=
  c10_exif_error_recorded.1 0 [] [] (by decide)
